import Mathlib

/-!
Verification of the two validation scripts of this repository:
src/scripts/verify_bundle.py (post-export bundle verifier) and
src/scripts/preflight.py (preflight configuration checker).

The Python scripts are shallowly embedded as follows.

Data model: the YAML configuration and the JSON manifest are dynamic
dictionaries in Python, accessed only through a fixed set of keys with
dict.get defaults; we embed them as structures whose fields are Option
values, and apply the same defaults at the same places the Python code
does (a field that is absent from the dictionary is the value none; a
field whose JSON or YAML value is the empty string is some "", which
Python treats as falsy where it tests truthiness).

Filesystem: the verifier reads CSV files located by the string path of
each manifest item (resolved against the fixed package directory); we
embed the package directory content as a function from that path string
to a FileEntry, which records whether the file is absent, present but
unreadable (any exception while opening or reading), or readable with a
given character content.  File content is the list of characters Python
sees after universal-newline translation, so every line break is the
single character of code 10.

Console output: each print call of the checked functions is embedded as
an emitted event, and every check returns its boolean result paired with
the list of events it emits, in emission order.  This makes statements
such as "one warning per TODO entry" and "every remaining item is still
reported" provable.

Row counting: verify_csv_files counts len(list(csv.reader(f))) - 1.
csv.reader with the default dialect parses records, not lines: a record
ends at a line break only when the parser is not inside a quoted field,
a quote character is special only at the start of a field, and inside a
quoted field a doubled quote is an escaped quote.  The state machine
csvStep below implements exactly that record segmentation, and
csvRecordCount counts the records of a character stream.  The
specification instead speaks of the number of lines of the file;
specLineCount counts lines the way Python line iteration does (a final
fragment without a trailing line break counts as a line) and is the
spec-side definition used to compare the two notions.
-/

set_option maxRecDepth 4096

/-- One database entry of a bundle in the export configuration:
the Python dict with keys "key" and "notion_url". -/
structure DatabaseEntry where
  key : Option String := none
  notion_url : Option String := none
  deriving DecidableEq

/-- One bundle definition of the export configuration: the Python dict
with keys "name", "schema_version" and "databases". -/
structure Bundle where
  name : Option String := none
  schema_version : Option String := none
  databases : Option (List DatabaseEntry) := none
  deriving DecidableEq

/-- The parsed export configuration.  export_bundles is the YAML mapping
from bundle key to bundle definition, embedded as an ordered association
list (Python dicts preserve insertion order).  The defaults section only
contributes the path strings out of which the package directory and the
manifest path are built; those paths are abstracted into the FileEntry
and ManifestFile inputs of the embedded main. -/
structure Config where
  export_bundles : List (String × Bundle) := []
  deriving DecidableEq

/-- The audit section of a manifest: the Python dict key "chitty_id". -/
structure Audit where
  chitty_id : Option String := none
  deriving DecidableEq

/-- One item of a manifest: the Python dict with keys "db_key",
"output" and "row_count". -/
structure Item where
  db_key : Option String := none
  output : Option String := none
  row_count : Option Int := none
  deriving DecidableEq

/-- A parsed manifest: the Python dict with keys "schema_version",
"items" and "audit". -/
structure Manifest where
  schema_version : Option String := none
  items : Option (List Item) := none
  audit : Option Audit := none
  deriving DecidableEq

/-- State of one file of the package directory, keyed by the output
path string of a manifest item: absent (Path.exists is false), present
but any exception is raised while opening or reading it, or readable
with the given character content. -/
inductive FileEntry where
  | absent
  | unreadable
  | readable (content : List Char)
  deriving DecidableEq

/-- True exactly for a file that exists and is read without error. -/
def FileEntry.isReadable : FileEntry → Bool
  | FileEntry.readable _ => true
  | _ => false

/-- Console output of the verifier checks, one constructor per print
call site of verify_csv_files, verify_schema_version and
verify_chittyid_compliance, plus the fatal manifest message of main. -/
inductive Event where
  | manifestFailed
  | noItems
  | csvMissing (path : String)
  | csvError (path : String)
  | csvMismatch (db_key : String) (recorded actual : Int)
  | csvVerified (db_key : String) (actual : Int)
  | noSchemaVersion
  | schemaMismatch (actual expected : String)
  | schemaOk (v : String)
  | noChittyId
  | chittyIdPresent (cid : String)
  deriving DecidableEq

/-- Parser state of csv.reader with the default dialect, restricted to
what record segmentation needs: start of a record, start of a field
after a delimiter, inside an unquoted field, inside a quoted field, and
just after a quote character inside a quoted field. -/
inductive CsvState where
  | startRecord
  | startField
  | inField
  | inQuoted
  | quoteInQuoted
  deriving DecidableEq

/-- One step of the csv.reader state machine on one character.  Returns
the next state and whether this character terminated a record.  A line
break terminates a record in every state except inside a quoted field;
a quote character is special only at the start of a field; inside a
quoted field a second quote either escapes (doubled quote) or ends the
quoted part. -/
def csvStep : CsvState → Char → CsvState × Bool
  | CsvState.startRecord, c =>
      if c = '\n' then (CsvState.startRecord, true)
      else if c = '"' then (CsvState.inQuoted, false)
      else if c = ',' then (CsvState.startField, false)
      else (CsvState.inField, false)
  | CsvState.startField, c =>
      if c = '\n' then (CsvState.startRecord, true)
      else if c = '"' then (CsvState.inQuoted, false)
      else if c = ',' then (CsvState.startField, false)
      else (CsvState.inField, false)
  | CsvState.inField, c =>
      if c = '\n' then (CsvState.startRecord, true)
      else if c = ',' then (CsvState.startField, false)
      else (CsvState.inField, false)
  | CsvState.inQuoted, c =>
      if c = '"' then (CsvState.quoteInQuoted, false)
      else (CsvState.inQuoted, false)
  | CsvState.quoteInQuoted, c =>
      if c = '"' then (CsvState.inQuoted, false)
      else if c = ',' then (CsvState.startField, false)
      else if c = '\n' then (CsvState.startRecord, true)
      else (CsvState.inField, false)

/-- Number of csv records in the remaining character stream, starting
from a given parser state.  At end of input, an unfinished record (any
state other than the start of a record) still counts, as csv.reader
yields it. -/
def csvCountAux : CsvState → List Char → Nat
  | s, [] => if s = CsvState.startRecord then 0 else 1
  | s, c :: cs =>
      (if (csvStep s c).2 then 1 else 0) + csvCountAux (csvStep s c).1 cs

/-- len(list(csv.reader(f))) for a file with the given character
content: the number of csv records of the stream. -/
def csvRecordCount (content : List Char) : Nat :=
  csvCountAux CsvState.startRecord content

/-- The row count verify_csv_files computes for a readable file:
len(list(csv.reader(f))) - 1, the header excluded.  An Int because
Python len(rows) - 1 is -1 on an empty file. -/
def actualRowCount (content : List Char) : Int :=
  (csvRecordCount content : Int) - 1

/-- Modelled from the spec: line counting helper.  The flag records
whether we are in the middle of a line that has not yet been closed by
a line break; such a final fragment counts as one more line. -/
def specLineCountAux : Bool → List Char → Nat
  | midLine, [] => if midLine then 1 else 0
  | _, c :: cs =>
      if c = '\n' then 1 + specLineCountAux false cs
      else specLineCountAux true cs

/-- Modelled from the spec: "total lines in the file", counted the way
Python line iteration does.  This is the spec-side definition C3
compares against the row count the code computes. -/
def specLineCount (content : List Char) : Nat :=
  specLineCountAux false content

/-- The accumulation loop shared by verify_csv_files and
check_bundle_config: fold a per-element check over the list, AND-ing
the boolean results (an element that fails sets the flag to false and
the loop continues) and concatenating the emitted events in order. -/
def stepFold {α β : Type} (f : α → Bool × List β)
    (xs : List α) (init : Bool × List β) : Bool × List β :=
  xs.foldl (fun acc x => (acc.1 && (f x).1, acc.2 ++ (f x).2)) init

/-- Body of the for-loop of verify_csv_files for one manifest item:
apply the dict.get defaults, look the output path up in the package
directory, and either fail (missing file, read error) or count rows,
warn on a count mismatch, and report the item as verified. -/
def itemStep (fs : String → FileEntry) (item : Item) : Bool × List Event :=
  let db_key := item.db_key.getD "unknown"
  let output_path := item.output.getD ""
  let row_count := item.row_count.getD 0
  match fs output_path with
  | FileEntry.absent => (false, [Event.csvMissing output_path])
  | FileEntry.unreadable => (false, [Event.csvError output_path])
  | FileEntry.readable content =>
      let actual := actualRowCount content
      (true,
        (if actual ≠ row_count then [Event.csvMismatch db_key row_count actual]
         else []) ++ [Event.csvVerified db_key actual])

/-- verify_csv_files of src/scripts/verify_bundle.py: fail on an empty
items list, otherwise run itemStep over every item, starting from an
all_valid flag of true. -/
def verify_csv_files (manifest : Manifest) (fs : String → FileEntry) :
    Bool × List Event :=
  let items := manifest.items.getD []
  if items.isEmpty then (false, [Event.noItems])
  else stepFold (itemStep fs) items (true, [])

/-- verify_chittyid_compliance of src/scripts/verify_bundle.py: warn
when audit.chitty_id is absent or falsy, succeed otherwise, and return
true in every case. -/
def verify_chittyid_compliance (manifest : Manifest) : Bool × List Event :=
  match (manifest.audit.getD {}).chitty_id with
  | none => (true, [Event.noChittyId])
  | some cid =>
      if cid = "" then (true, [Event.noChittyId])
      else (true, [Event.chittyIdPresent cid])

/-- verify_schema_version of src/scripts/verify_bundle.py: the falsy
test (if not actual_version) catches both an absent key and the empty
string; only a present, non-empty version reaches the comparison with
the expected version. -/
def verify_schema_version (manifest : Manifest) (expected_version : String) :
    Bool × List Event :=
  match manifest.schema_version with
  | none => (false, [Event.noSchemaVersion])
  | some v =>
      if v = "" then (false, [Event.noSchemaVersion])
      else if v ≠ expected_version then
        (false, [Event.schemaMismatch v expected_version])
      else (true, [Event.schemaOk v])

/-- State of the manifest file at output_root/bundle_key/
manifest_filename: absent, present but not valid JSON, or valid with
the given parsed content. -/
inductive ManifestFile where
  | absent
  | invalidJson
  | valid (m : Manifest)
  deriving DecidableEq

/-- verify_manifest of src/scripts/verify_bundle.py: a missing file or
a JSON decode error both yield (False, the empty dict). -/
def verify_manifest : ManifestFile → Bool × Manifest
  | ManifestFile.absent => (false, {})
  | ManifestFile.invalidJson => (false, {})
  | ManifestFile.valid m => (true, m)

/-- Dictionary lookup in the export_bundles mapping, embedded over the
ordered association list. -/
def lookupBundle (bundles : List (String × Bundle)) (key : String) :
    Option Bundle :=
  (bundles.find? (fun p => p.1 == key)).map Prod.snd

/-- main of src/scripts/verify_bundle.py, from the point where the
configuration has been parsed.  An unknown bundle key exits 1 before
any check.  Then the manifest is loaded; on failure the process exits 1
at once, so no data-file, schema-version or identifier check runs and
no event of theirs is emitted.  Otherwise the three checks run in
order, their boolean results are AND-ed, and the exit status is 0
exactly when all of them returned true.  The result is the exit status
paired with the events of the checks that ran. -/
def verifier_main (cfg : Config) (bundle : String) (mf : ManifestFile)
    (fs : String → FileEntry) : Nat × List Event :=
  match lookupBundle cfg.export_bundles bundle with
  | none => (1, [])
  | some bundle_cfg =>
      match verify_manifest mf with
      | (false, _) => (1, [Event.manifestFailed])
      | (true, manifest) =>
          let r1 := verify_csv_files manifest fs
          let expected := bundle_cfg.schema_version.getD "1.0.0"
          let r2 := verify_schema_version manifest expected
          let r3 := verify_chittyid_compliance manifest
          ((if r1.1 && r2.1 && r3.1 then 0 else 1), r1.2 ++ r2.2 ++ r3.2)

/-- Console output of the preflight checks, one constructor per print
call site of check_bundle_config. -/
inductive PEvent where
  | noBundlesSection
  | bundleNotFound (key : String)
  | checkingBundle (key : String)
  | missingName
  | nameOk (n : String)
  | missingSchemaVersion
  | schemaVersionOk (v : String)
  | noDatabases
  | databasesOk (n : Nat)
  | todoUrl (db_key url : String)
  | urlConfigured (db_key : String)
  | todoSummary (n : Nat)
  deriving DecidableEq

/-- True exactly for the placeholder-URL warning event. -/
def PEvent.isTodoUrl : PEvent → Bool
  | PEvent.todoUrl _ _ => true
  | _ => false

/-- Body of the database loop of check_bundle_config for one entry:
classify its notion_url (dict.get default the empty string) as a
TODO placeholder or as configured.  Returns the emitted event and
whether the entry counts toward todo_count. -/
def dbStep (db : DatabaseEntry) : PEvent × Bool :=
  let db_key := db.key.getD "unknown"
  let notion_url := db.notion_url.getD ""
  if notion_url.startsWith "TODO:" then
    (PEvent.todoUrl db_key notion_url, true)
  else
    (PEvent.urlConfigured db_key, false)

/-- Per-bundle body of check_bundle_config: check the name and
schema_version fields for presence, then the databases list for
non-emptiness; when it is non-empty, classify every entry with dbStep
and emit the todo_count summary when at least one placeholder was
found.  The boolean result is the conjunction of the three hard
checks; placeholder warnings do not enter it. -/
def checkBundle (key : String) (b : Bundle) : Bool × List PEvent :=
  let nameRes : Bool × List PEvent :=
    match b.name with
    | none => (false, [PEvent.missingName])
    | some n => (true, [PEvent.nameOk n])
  let svRes : Bool × List PEvent :=
    match b.schema_version with
    | none => (false, [PEvent.missingSchemaVersion])
    | some v => (true, [PEvent.schemaVersionOk v])
  let databases := b.databases.getD []
  let dbRes : Bool × List PEvent :=
    if databases.isEmpty then (false, [PEvent.noDatabases])
    else
      let todo_count := (databases.filter (fun db => (dbStep db).2)).length
      (true,
        PEvent.databasesOk databases.length ::
          (databases.map (fun db => (dbStep db).1) ++
            (if todo_count > 0 then [PEvent.todoSummary todo_count] else [])))
  (nameRes.1 && svRes.1 && dbRes.1,
   PEvent.checkingBundle key :: (nameRes.2 ++ svRes.2 ++ dbRes.2))

/-- keys_to_check of check_bundle_config: the single filter key when it
is given and truthy (a non-empty string), else every key of the
export_bundles mapping in configuration order. -/
def keysToCheck (cfg : Config) (bundle_key : Option String) : List String :=
  match bundle_key with
  | some k => if k = "" then cfg.export_bundles.map Prod.fst else [k]
  | none => cfg.export_bundles.map Prod.fst

/-- Per-key body of the loop of check_bundle_config: a key that is not
in the mapping is a hard failure for that key and the loop continues;
a found bundle is checked with checkBundle. -/
def keyStep (bundles : List (String × Bundle)) (key : String) :
    Bool × List PEvent :=
  match lookupBundle bundles key with
  | none => (false, [PEvent.bundleNotFound key])
  | some b => checkBundle key b

/-- check_bundle_config of src/scripts/preflight.py: fail at once when
the export_bundles section is absent or empty, else run keyStep over
the keys to check, starting from an all_valid flag of true. -/
def check_bundle_config (cfg : Config) (bundle_key : Option String) :
    Bool × List PEvent :=
  if cfg.export_bundles.isEmpty then (false, [PEvent.noBundlesSection])
  else stepFold (keyStep cfg.export_bundles) (keysToCheck cfg bundle_key)
    (true, [])

/-- check_notion_token of src/scripts/preflight.py, over the value of
the NOTION_TOKEN environment variable (none when unset).  The falsy
test (if not token) catches both an unset variable and the empty
string; a token shorter than 20 characters fails; anything else
passes. -/
def check_notion_token (token : Option String) : Bool :=
  match token with
  | none => false
  | some t =>
      if t = "" then false
      else if t.length < 20 then false
      else true

/-! Helper lemmas about the shared accumulation loop. -/

theorem stepFold_fst {α β : Type} (f : α → Bool × List β) (xs : List α)
    (init : Bool × List β) :
    (stepFold f xs init).1 = (init.1 && xs.all (fun x => (f x).1)) := by
  induction xs generalizing init with
  | nil => simp [stepFold]
  | cons x xs ih =>
      simp only [stepFold, List.foldl_cons] at *
      rw [ih]
      simp [Bool.and_assoc]

theorem stepFold_mem_init {α β : Type} (f : α → Bool × List β) (xs : List α) :
    ∀ init : Bool × List β, ∀ b ∈ init.2, b ∈ (stepFold f xs init).2 := by
  induction xs with
  | nil => intro init b hb; simpa [stepFold] using hb
  | cons x xs ih =>
      intro init b hb
      simp only [stepFold, List.foldl_cons]
      have h2 := ih (init.1 && (f x).1, init.2 ++ (f x).2) b
        (List.mem_append_left _ hb)
      simpa [stepFold] using h2

theorem stepFold_mem {α β : Type} (f : α → Bool × List β) (xs : List α) :
    ∀ init : Bool × List β, ∀ x ∈ xs, ∀ b ∈ (f x).2,
      b ∈ (stepFold f xs init).2 := by
  induction xs with
  | nil => intro _ x hx; cases hx
  | cons y ys ih =>
      intro init x hx b hb
      rcases List.mem_cons.mp hx with hxy | hx'
      · subst hxy
        simp only [stepFold, List.foldl_cons]
        have h2 := stepFold_mem_init f ys (init.1 && (f x).1, init.2 ++ (f x).2)
          b (List.mem_append_right _ hb)
        simpa [stepFold] using h2
      · simp only [stepFold, List.foldl_cons]
        have h2 := ih (init.1 && (f y).1, init.2 ++ (f y).2) x hx' b hb
        simpa [stepFold] using h2

/-! Helper lemmas about the verifier checks. -/

theorem itemStep_fst (fs : String → FileEntry) (item : Item) :
    (itemStep fs item).1 = (fs (item.output.getD "")).isReadable := by
  unfold itemStep
  cases h : fs (item.output.getD "") <;> simp [h, FileEntry.isReadable]

theorem verify_csv_files_fst (m : Manifest) (fs : String → FileEntry) :
    (verify_csv_files m fs).1 =
      (!(m.items.getD []).isEmpty &&
        (m.items.getD []).all
          (fun item => (fs (item.output.getD "")).isReadable)) := by
  cases hi : (m.items.getD []).isEmpty
  · simp [verify_csv_files, hi, stepFold_fst, itemStep_fst]
  · simp [verify_csv_files, hi]

theorem verify_csv_files_eq_stepFold (m : Manifest) (fs : String → FileEntry)
    (h : (m.items.getD []).isEmpty = false) :
    verify_csv_files m fs = stepFold (itemStep fs) (m.items.getD []) (true, []) := by
  simp [verify_csv_files, h]

/-! Helper lemmas about csv record counting.  On input without any
quote character the parser can never enter a quoted field, so every
line break ends a record and records coincide with lines. -/

theorem csv_noquote (cs : List Char) (hq : '"' ∉ cs) :
    csvCountAux CsvState.startRecord cs = specLineCountAux false cs ∧
    csvCountAux CsvState.startField cs = specLineCountAux true cs ∧
    csvCountAux CsvState.inField cs = specLineCountAux true cs := by
  induction cs with
  | nil => exact ⟨rfl, rfl, rfl⟩
  | cons c cs ih =>
      have hq' : '"' ∉ cs := fun hmem => hq (List.mem_cons_of_mem _ hmem)
      have hc : ¬ c = '"' := fun hcq => hq (by rw [hcq]; exact List.mem_cons_self _ _)
      obtain ⟨ih1, ih2, ih3⟩ := ih hq'
      by_cases hn : c = '\n'
      · subst hn
        refine ⟨?_, ?_, ?_⟩ <;>
          simp [csvCountAux, csvStep, specLineCountAux, ih1]
      · by_cases hcm : c = ','
        · subst hcm
          refine ⟨?_, ?_, ?_⟩ <;>
            simp [csvCountAux, csvStep, specLineCountAux, ih2]
        · refine ⟨?_, ?_, ?_⟩ <;>
            simp [csvCountAux, csvStep, specLineCountAux, hn, hcm, hc, ih3]

theorem csvRecordCount_eq_specLineCount (cs : List Char) (hq : '"' ∉ cs) :
    csvRecordCount cs = specLineCount cs :=
  (csv_noquote cs hq).1

/-! Helper lemmas about the preflight checks. -/

theorem dbStep_todo (db : DatabaseEntry) :
    ((dbStep db).1.isTodoUrl = (db.notion_url.getD "").startsWith "TODO:") ∧
    ((dbStep db).2 = (db.notion_url.getD "").startsWith "TODO:") := by
  unfold dbStep
  by_cases h : (db.notion_url.getD "").startsWith "TODO:" <;>
    simp [h, PEvent.isTodoUrl]

theorem filter_todo_map (dbs : List DatabaseEntry) :
    ((dbs.map (fun db => (dbStep db).1)).filter PEvent.isTodoUrl).length
      = (dbs.filter
          (fun db => (db.notion_url.getD "").startsWith "TODO:")).length := by
  induction dbs with
  | nil => rfl
  | cons d ds ih =>
      simp only [List.map_cons, List.filter_cons, (dbStep_todo d).1]
      by_cases h : (d.notion_url.getD "").startsWith "TODO:" <;>
        simp [h, ih]

theorem isEmpty_false_iff {α : Type} (l : List α) : l.isEmpty = false ↔ l ≠ [] := by
  cases l <;> simp

theorem checkBundle_fst (key : String) (b : Bundle) :
    (checkBundle key b).1 =
      (b.name.isSome && (b.schema_version.isSome &&
        !(b.databases.getD []).isEmpty)) := by
  unfold checkBundle
  cases hn : b.name <;> cases hs : b.schema_version <;>
    cases hd : (b.databases.getD []).isEmpty <;>
      simp [hn, hs, hd]

theorem checkBundle_todo_count (key : String) (b : Bundle) :
    ((checkBundle key b).2.filter PEvent.isTodoUrl).length
      = ((b.databases.getD []).filter
          (fun db => (db.notion_url.getD "").startsWith "TODO:")).length := by
  unfold checkBundle
  cases hn : b.name <;> cases hs : b.schema_version <;>
    cases hd : (b.databases.getD []).isEmpty
  all_goals
    first
    | (have hnil : b.databases.getD [] = [] := List.isEmpty_iff.mp hd
       simp [hn, hs, hnil, PEvent.isTodoUrl])
    | simp [hn, hs, hd, PEvent.isTodoUrl, List.filter_append, apply_ite
        (List.filter PEvent.isTodoUrl), filter_todo_map]

theorem keyStep_true_iff (bundles : List (String × Bundle)) (key : String) :
    (keyStep bundles key).1 = true ↔
      ∃ b, lookupBundle bundles key = some b ∧ b.name.isSome = true ∧
        b.schema_version.isSome = true ∧ b.databases.getD [] ≠ [] := by
  unfold keyStep
  cases hl : lookupBundle bundles key with
  | none => simp
  | some b =>
      simp [checkBundle_fst, isEmpty_false_iff, Bool.and_eq_true,
        Bool.not_eq_true']

theorem check_bundle_config_fst (cfg : Config) (bk : Option String) :
    (check_bundle_config cfg bk).1 =
      (!cfg.export_bundles.isEmpty &&
        (keysToCheck cfg bk).all
          (fun key => (keyStep cfg.export_bundles key).1)) := by
  cases he : cfg.export_bundles.isEmpty
  · simp [check_bundle_config, he, stepFold_fst]
  · simp [check_bundle_config, he]

/-! Concrete fixtures used by the witnesses and counterexamples. -/

def itemA : Item := { db_key := some "d", output := some "a.csv", row_count := some 1 }

def itemB : Item := { db_key := some "m", output := some "b.csv", row_count := some 0 }

def fsA : String → FileEntry :=
  fun s => if s = "a.csv" then FileEntry.readable ['h', '\n', 'r', '\n']
    else FileEntry.absent

def manifestA : Manifest := { items := some [itemA] }

def manifestAB : Manifest := { items := some [itemA, itemB] }

def quotedCsv : List Char := ['"', 'a', '\n', 'b', '"', '\n', 'x', '\n']

def itemQ : Item := { db_key := some "d", output := some "f.csv", row_count := some 2 }

def manifestQ : Manifest := { items := some [itemQ] }

def fsQ : String → FileEntry :=
  fun s => if s = "f.csv" then FileEntry.readable quotedCsv else FileEntry.absent

def bundleA : Bundle :=
  { name := some "Governance", schema_version := some "1.0.0",
    databases := some [{ key := some "d", notion_url := some "u" }] }

def cfgA : Config := { export_bundles := [("governance", bundleA)] }

def dbEmptyUrl : DatabaseEntry := { key := some "k9", notion_url := some "" }

def bundleB : Bundle :=
  { name := some "N", schema_version := some "1.0.0",
    databases := some [dbEmptyUrl] }

/-! The claims. -/

/-- Claim C1: the data-file check returns true exactly when the items
list of the manifest is non-empty and every item references a file that
exists and is read without error.  The right hand side does not mention
row counts, so a difference between the counted row count and the
recorded row_count can never, by itself, make the check return
false. -/
theorem csv_check_true_iff_all_readable (m : Manifest) (fs : String → FileEntry) :
    (verify_csv_files m fs).1 = true ↔
      (m.items.getD [] ≠ [] ∧
        ∀ item ∈ m.items.getD [],
          (fs (item.output.getD "")).isReadable = true) := by
  rw [verify_csv_files_fst]
  simp [List.all_eq_true, isEmpty_false_iff, Bool.and_eq_true,
    Bool.not_eq_true']

theorem csv_check_true_iff_all_readable_witness :
    (verify_csv_files manifestA fsA).1 = true :=
  (csv_check_true_iff_all_readable manifestA fsA).mpr ⟨by decide, by decide⟩

/-- Claim C5: when at least one item references a missing file the
data-file check returns false, and still every item whose file is
readable is opened, counted and reported with its verified event: one
missing file does not abort the checking of the remaining items. -/
theorem missing_file_partial_failure (m : Manifest) (fs : String → FileEntry)
    (hmiss : ∃ item ∈ m.items.getD [],
      fs (item.output.getD "") = FileEntry.absent) :
    (verify_csv_files m fs).1 = false ∧
    ∀ item ∈ m.items.getD [], ∀ content,
      fs (item.output.getD "") = FileEntry.readable content →
      Event.csvVerified (item.db_key.getD "unknown") (actualRowCount content)
        ∈ (verify_csv_files m fs).2 := by
  obtain ⟨item0, hmem0, habs⟩ := hmiss
  have hne : (m.items.getD []).isEmpty = false := by
    cases hl : m.items.getD []
    · rw [hl] at hmem0; cases hmem0
    · rfl
  constructor
  · rw [verify_csv_files_fst]
    have hall : (m.items.getD []).all
        (fun item => (fs (item.output.getD "")).isReadable) = false := by
      cases hb : (m.items.getD []).all
          (fun item => (fs (item.output.getD "")).isReadable)
      · rfl
      · have := (List.all_eq_true.mp hb) item0 hmem0
        rw [habs] at this
        simp [FileEntry.isReadable] at this
    simp [hall]
  · intro item hmem content hread
    rw [verify_csv_files_eq_stepFold m fs hne]
    refine stepFold_mem (itemStep fs) (m.items.getD []) (true, []) item hmem _ ?_
    simp [itemStep, hread]

theorem missing_file_partial_failure_witness :
    (verify_csv_files manifestAB fsA).1 = false ∧
    Event.csvVerified "d" 1 ∈ (verify_csv_files manifestAB fsA).2 := by
  have h := missing_file_partial_failure manifestAB fsA
    ⟨itemB, by decide, by decide⟩
  exact ⟨h.1, h.2 itemA (by decide) ['h', '\n', 'r', '\n'] (by decide)⟩

/-- Claim C3 counterexample: the readable file quotedCsv starts with a
quoted field containing a line break, so csv.reader sees 2 records
while the file has 3 lines: the row count the verifier computes is 1
and not the total number of lines minus one, which is 2.  On a manifest
that records row_count = 2 (the line count minus one) the verifier
accordingly emits a mismatch warning. -/
theorem row_count_lines_cex :
    actualRowCount quotedCsv ≠ (specLineCount quotedCsv : Int) - 1 ∧
    Event.csvMismatch "d" 2 1 ∈ (verify_csv_files manifestQ fsQ).2 := by
  decide

/-- Claim C3 as amended: the row count the verifier computes and
compares against the item's row_count is the number of csv records of
the file minus one; for every readable file in which no double-quote
character occurs (so that no record can span more than one line) this
equals the total number of lines of the file minus one, the first line
being the header, exactly as the claim states. -/
theorem row_count_eq_lines_of_no_quote (content : List Char)
    (hq : '"' ∉ content) :
    actualRowCount content = (specLineCount content : Int) - 1 := by
  unfold actualRowCount
  rw [csvRecordCount_eq_specLineCount content hq]

theorem row_count_eq_lines_of_no_quote_witness :
    ('"' ∉ (['h', '\n', 'r', '\n'] : List Char)) ∧
    actualRowCount ['h', '\n', 'r', '\n'] =
      (specLineCount ['h', '\n', 'r', '\n'] : Int) - 1 :=
  ⟨by decide, row_count_eq_lines_of_no_quote _ (by decide)⟩

/-- Claim C2 counterexample: a manifest whose schema_version key is
present, holding the empty string, compared against the configured
expected version that is also the empty string: the two strings are
equal, so the claim requires the check to return true, but the code
tests truthiness rather than presence and returns false. -/
theorem schema_version_empty_equal_cex :
    (verify_schema_version { schema_version := some "" } "").1 ≠ true := by
  decide

/-- Claim C2 as amended: for every manifest whose schema_version is
present and non-empty, and every configured expected version, the
schema-version check returns true exactly when the two strings are
equal (so an unequal version is a hard failure, unlike a row-count
mismatch); when the manifest's schema_version is absent, or present
but the empty string, the check returns false. -/
theorem schema_version_check_amended (m : Manifest) (expected : String) :
    (m.schema_version = none ∨ m.schema_version = some "" →
      (verify_schema_version m expected).1 = false) ∧
    (∀ v, m.schema_version = some v → v ≠ "" →
      ((verify_schema_version m expected).1 = true ↔ v = expected)) := by
  constructor
  · rintro (h | h) <;> simp [verify_schema_version, h]
  · intro v hv hne
    by_cases he : v = expected
    · subst he
      simp [verify_schema_version, hv, hne]
    · simp [verify_schema_version, hv, hne, he]

theorem schema_version_check_amended_witness :
    (verify_schema_version { schema_version := some "1.0.0" } "1.0.0").1
      = true :=
  ((schema_version_check_amended { schema_version := some "1.0.0" }
    "1.0.0").2 "1.0.0" rfl (by decide)).mpr rfl

/-- Claim C10: a schema_version that is present but holds a falsy value
(the empty string) takes the missing-version branch: the check reports
that no schema_version is in the manifest and returns false, rather
than the version-mismatch branch that names both versions. -/
theorem falsy_schema_version_missing_branch (m : Manifest)
    (expected : String) (h : m.schema_version = some "") :
    verify_schema_version m expected = (false, [Event.noSchemaVersion]) := by
  simp [verify_schema_version, h]

theorem falsy_schema_version_missing_branch_witness :
    verify_schema_version { schema_version := some "" } "1.0.0"
      = (false, [Event.noSchemaVersion]) :=
  falsy_schema_version_missing_branch _ "1.0.0" rfl

/-- Claim C4: when the bundle key is configured but the manifest file
is missing or not valid JSON, the manifest-load step returns the pair
of false and the empty manifest, and the main of the verifier exits
with status 1 having emitted only the fatal diagnostic: no data-file,
schema-version or identifier check runs, so no event of theirs
appears. -/
theorem manifest_load_failure_fatal (cfg : Config) (bundle : String)
    (bcfg : Bundle) (mf : ManifestFile) (fs : String → FileEntry)
    (hb : lookupBundle cfg.export_bundles bundle = some bcfg)
    (hmf : mf = ManifestFile.absent ∨ mf = ManifestFile.invalidJson) :
    verify_manifest mf = (false, {}) ∧
    verifier_main cfg bundle mf fs = (1, [Event.manifestFailed]) := by
  rcases hmf with rfl | rfl <;>
    exact ⟨rfl, by unfold verifier_main; rw [hb]; rfl⟩

theorem manifest_load_failure_fatal_witness :
    verify_manifest ManifestFile.absent = (false, {}) ∧
    verifier_main cfgA "governance" ManifestFile.absent
      (fun _ => FileEntry.absent) = (1, [Event.manifestFailed]) :=
  manifest_load_failure_fatal cfgA "governance" bundleA ManifestFile.absent
    (fun _ => FileEntry.absent) (by decide) (Or.inl rfl)

/-- Claim C8: the identifier-compliance check returns true on every
manifest, whether or not a chitty_id value is present under the audit
section, so this check can never contribute a failure to the overall
verification result. -/
theorem chittyid_check_always_true (m : Manifest) :
    (verify_chittyid_compliance m).1 = true := by
  unfold verify_chittyid_compliance
  cases h : (m.audit.getD {}).chitty_id with
  | none => rfl
  | some cid => by_cases hc : cid = "" <;> simp [hc]

/-- Claim C6: the bundle-configuration check returns true exactly when
the export_bundles section is non-empty and every checked key resolves
to a bundle that has a name, a schema_version and a non-empty databases
list — so no hard failure occurs; and, for every bundle checked, the
number of placeholder warnings emitted equals the number of database
entries whose notion_url starts with the TODO: marker (one warning per
entry, counted by todo_count).  The boolean characterization does not
mention the urls, so placeholder entries never make the result false on
their own. -/
theorem bundle_config_check_characterization (cfg : Config)
    (bundle_key : Option String) :
    ((check_bundle_config cfg bundle_key).1 = true ↔
      (cfg.export_bundles ≠ [] ∧
        ∀ key ∈ keysToCheck cfg bundle_key, ∃ b,
          lookupBundle cfg.export_bundles key = some b ∧
          b.name.isSome = true ∧ b.schema_version.isSome = true ∧
          b.databases.getD [] ≠ [])) ∧
    (∀ key b, ((checkBundle key b).2.filter PEvent.isTodoUrl).length
      = ((b.databases.getD []).filter
          (fun db => (db.notion_url.getD "").startsWith "TODO:")).length) := by
  constructor
  · rw [check_bundle_config_fst]
    simp [List.all_eq_true, isEmpty_false_iff, Bool.and_eq_true,
      Bool.not_eq_true', keyStep_true_iff]
  · intro key b
    exact checkBundle_todo_count key b

theorem bundle_config_check_characterization_witness :
    cfgA.export_bundles ≠ [] :=
  (((bundle_config_check_characterization cfgA none).1).mp (by decide)).1

/-- Claim C7: the credential check returns true exactly when the
NOTION_TOKEN environment variable is set to a value of at least 20
characters; it returns false when the variable is absent or its value
(the empty string included) is shorter than 20 characters. -/
theorem notion_token_check_iff (token : Option String) :
    check_notion_token token = true ↔
      ∃ t, token = some t ∧ 20 ≤ t.length := by
  unfold check_notion_token
  cases token with
  | none => simp
  | some t =>
      by_cases h0 : t = ""
      · subst h0
        simp
      · by_cases h1 : t.length < 20
        · simp [h0, h1]
        · simp [h0, h1]
          omega

theorem notion_token_check_iff_witness :
    check_notion_token (some "secret_token_12345678") = true :=
  (notion_token_check_iff _).mpr ⟨"secret_token_12345678", rfl, by decide⟩

/-- Claim C9: a database entry whose notion_url is absent or the empty
string is classified as configured: its emitted event is the success
event and not a placeholder warning, it does not count toward
todo_count, and within any bundle that contains it the boolean result
of the bundle check reduces to the name and schema_version field
checks, so the entry never makes the check return false. -/
theorem empty_url_configured (db : DatabaseEntry)
    (h : db.notion_url = none ∨ db.notion_url = some "") :
    dbStep db = (PEvent.urlConfigured (db.key.getD "unknown"), false) ∧
    (∀ ds : List DatabaseEntry,
      ((db :: ds).filter (fun d => (dbStep d).2)).length
        = (ds.filter (fun d => (dbStep d).2)).length) ∧
    (∀ key b, db ∈ b.databases.getD [] →
      (checkBundle key b).1 = (b.name.isSome && b.schema_version.isSome)) := by
  have hurl : db.notion_url.getD "" = "" := by
    rcases h with h | h <;> simp [h]
  have hsw : ("".startsWith "TODO:") = false := by decide
  have hstep : dbStep db = (PEvent.urlConfigured (db.key.getD "unknown"), false) := by
    simp [dbStep, hurl, hsw]
  refine ⟨hstep, ?_, ?_⟩
  · intro ds
    simp [List.filter_cons, hstep]
  · intro key b hmem
    have hne : (b.databases.getD []).isEmpty = false := by
      cases hl : b.databases.getD []
      · rw [hl] at hmem; cases hmem
      · rfl
    rw [checkBundle_fst]
    simp [hne]

theorem empty_url_configured_witness :
    dbStep dbEmptyUrl = (PEvent.urlConfigured "k9", false) ∧
    (checkBundle "g" bundleB).1
      = (bundleB.name.isSome && bundleB.schema_version.isSome) := by
  have h := empty_url_configured dbEmptyUrl (Or.inr rfl)
  exact ⟨h.1, h.2.2 "g" bundleB (by decide)⟩
